import Mathlib

/-!
Verification of the tenant-account lifecycle reconciler.

The model shallowly embeds the three event handlers of the repository:

* `handleProvisionProduct` — `src/handlers/provision-product/index.ts`
* `handleCreateManagedAccount` — Control Tower account-creation handler
* `handleStackSetInstanceStatusChange` — CloudFormation StackSet status handler

The DynamoDB table is modelled as a list of `TenantAccountRecord`s; the
JavaScript convention that a missing or empty string attribute is falsy is
modelled by treating the empty string `""` as the absent value.
-/

/-- One row of the link table.  Attribute names follow the DynamoDB item
written by the source (`PK`, `SK`, `AwsAccountStatus`, `AwsAccountId`,
`AwsAccountName`, `PageSuiteRoleStatus`, `PageSuiteRoleArn`, `LastModified`).
A missing attribute is modelled as `""`. -/
structure TenantAccountRecord where
  PK : String
  SK : String
  AwsAccountStatus : String
  AwsAccountId : String
  AwsAccountName : String
  PageSuiteRoleStatus : String
  PageSuiteRoleArn : String
  LastModified : String
deriving DecidableEq, Inhabited

/-- The JavaScript `x || d` defaulting idiom on strings: the empty string is
falsy, anything else is returned unchanged. -/
def jsOr (s d : String) : String := if s = "" then d else s

/-- `tags.find(t => t.key === k)?.value || ''`: the value of the first tag or
parameter with key `k`, or `""` when absent (undefined and `''` are both
falsy in the source, so they collapse to the same model value). -/
structure Tag where
  key : String
  value : String
deriving DecidableEq, Inhabited

def findTag (tags : List Tag) (k : String) : String :=
  match tags.find? (fun t => t.key == k) with
  | some t => t.value
  | none => ""

/-- JavaScript `String.prototype.split(sep)` on a one-character separator,
on the character list: every occurrence splits, empty segments are kept, and
the empty string yields `[[]]`. -/
def splitChar (c : Char) : List Char → List (List Char)
  | [] => [[]]
  | x :: xs =>
    let rest := splitChar c xs
    if x = c then [] :: rest
    else
      match rest with
      | [] => [[x]]
      | y :: ys => (x :: y) :: ys

/-- `s.split(c)` as a list of strings. -/
def jsSplit (c : Char) (s : String) : List String :=
  (splitChar c s.data).map (fun l => String.mk l)

/-- A freshly upserted DynamoDB item has only the attributes named in the
update expression; every other attribute reads back as absent (`""`). -/
def emptyRecord (pk sk : String) : TenantAccountRecord :=
  { PK := pk, SK := sk, AwsAccountStatus := "", AwsAccountId := "",
    AwsAccountName := "", PageSuiteRoleStatus := "", PageSuiteRoleArn := "",
    LastModified := "" }

/-- The semantics of an (unconditional) `UpdateCommand` keyed on `(pk, sk)`:
if an item with that key exists every such item has the attribute changes `f`
applied, otherwise a fresh item is upserted with only the changed
attributes set. -/
def updateItem (store : List TenantAccountRecord) (pk sk : String)
    (f : TenantAccountRecord → TenantAccountRecord) : List TenantAccountRecord :=
  if store.any (fun r => r.PK == pk && r.SK == sk) then
    store.map (fun r => if r.PK == pk && r.SK == sk then f r else r)
  else
    store ++ [f (emptyRecord pk sk)]

/-- The error taxonomy reported (logged) by the handlers. -/
inductive ReconcilerError where
  | CorrelationKeyMissing
  | MalformedResourceId
  | RecordNotFound
  | AmbiguousCorrelation
  | DirectoryLookupFailed
  | StoreWriteConflict
deriving DecidableEq, Inhabited

/-- The observable outcome of one handler invocation: the store after the
invocation, the number of `UpdateCommand`s sent, the errors reported, and the
number of directory (`DescribeAccount`) lookups performed. -/
structure HandlerResult where
  store : List TenantAccountRecord
  writes : Nat
  errors : List ReconcilerError
  dirLookups : Nat
deriving DecidableEq, Inhabited

/-- The event detail consumed by `handleProvisionProduct`:
`requestParameters.tags`, `requestParameters.provisioningParameters`, and
`responseElements.recordDetail.status` (modelled `""` when absent). -/
structure ProvisionProductDetail where
  tags : List Tag
  provisioningParameters : List Tag
  status : String
deriving DecidableEq, Inhabited

/-- `handleProvisionProduct` from `src/handlers/provision-product/index.ts`:
extract the `ps:accountId` and `ps:environment` tags (report and stop when
either is falsy), the `AccountName` provisioning parameter (default `""`),
and the record status (default `"UNKNOWN"`); remap a raw `CREATED` status to
`IN_PROGRESS`; then unconditionally update the item keyed
`PS#<psAccountId>` / `ENV#<environment>`. -/
def handleProvisionProduct (now : String) (store : List TenantAccountRecord)
    (detail : ProvisionProductDetail) : HandlerResult :=
  let psAccountId := findTag detail.tags "ps:accountId"
  let environment := findTag detail.tags "ps:environment"
  if psAccountId = "" ∨ environment = "" then
    { store := store, writes := 0, errors := [.CorrelationKeyMissing], dirLookups := 0 }
  else
    let accountName := findTag detail.provisioningParameters "AccountName"
    let rawStatus := jsOr detail.status "UNKNOWN"
    let status := if rawStatus = "CREATED" then "IN_PROGRESS" else rawStatus
    { store := updateItem store ("PS#" ++ psAccountId) ("ENV#" ++ environment)
        (fun r => { r with AwsAccountStatus := status, AwsAccountName := accountName,
                           LastModified := now }),
      writes := 1, errors := [], dirLookups := 0 }

/-- The event detail consumed by `handleCreateManagedAccount`:
`serviceEventDetails.createManagedAccountStatus.{state, account.{accountId,
accountName}}`, each modelled `""` when absent. -/
structure CreateManagedAccountDetail where
  state : String
  accountId : String
  accountName : String
deriving DecidableEq, Inhabited

/-- `handleCreateManagedAccount` from the Control Tower handler: remap a raw
`SUCCEEDED` state to `READY` (else pass it through), scan the table for items
whose `AwsAccountName` equals the event's account name, report when zero or
more than one item matches, and otherwise update the matched item's
`AwsAccountId`, `AwsAccountStatus` and `LastModified`. -/
def handleCreateManagedAccount (now : String) (store : List TenantAccountRecord)
    (detail : CreateManagedAccountDetail) : HandlerResult :=
  let awsAccountStatus := if detail.state = "SUCCEEDED" then "READY" else detail.state
  match store.filter (fun r => r.AwsAccountName == detail.accountName) with
  | [] => { store := store, writes := 0, errors := [.RecordNotFound], dirLookups := 0 }
  | [item] =>
    { store := updateItem store item.PK item.SK
        (fun r => { r with AwsAccountId := detail.accountId,
                           AwsAccountStatus := awsAccountStatus, LastModified := now }),
      writes := 1, errors := [], dirLookups := 0 }
  | _ => { store := store, writes := 0, errors := [.AmbiguousCorrelation], dirLookups := 0 }

/-- The event detail consumed by `handleStackSetInstanceStatusChange`:
`stack-id`, `status-details.detailed-status` and `status-details.status`,
each modelled `""` when absent. -/
structure StackSetStatusDetail where
  stackId : String
  detailedStatus : String
  status : String
deriving DecidableEq, Inhabited

/-- `handleStackSetInstanceStatusChange` from the CloudFormation StackSet
handler: split the `stack-id` on `:` and stop with an invalid-format report
when fewer than 5 segments result; take the account id from segment 4 and the
status from `detailed-status || status`; resolve the account id to a name via
the Organizations directory (`dir`, `none` modelling a missing `Account.Name`);
scan the table on `AwsAccountName`; report on zero or multiple matches; remap
`SUCCEEDED` to `READY`; skip the write when the new status is `READY` and the
item already has `PageSuiteRoleStatus = READY` with a truthy
`PageSuiteRoleArn`; otherwise update `PageSuiteRoleStatus` and `LastModified`,
also setting `PageSuiteRoleArn = arn:aws:iam::<accountId>:role/PageSuiteRole`
exactly when the new status is `READY`. -/
def handleStackSetInstanceStatusChange (now : String) (dir : String → Option String)
    (store : List TenantAccountRecord) (detail : StackSetStatusDetail) : HandlerResult :=
  let stackIdParts := jsSplit ':' detail.stackId
  if stackIdParts.length < 5 then
    { store := store, writes := 0, errors := [.MalformedResourceId], dirLookups := 0 }
  else
    let accountId := stackIdParts.getD 4 ""
    let stackSetStatus := jsOr detail.detailedStatus detail.status
    match dir accountId with
    | none =>
      { store := store, writes := 0, errors := [.DirectoryLookupFailed], dirLookups := 1 }
    | some accountName =>
      match store.filter (fun r => r.AwsAccountName == accountName) with
      | [] => { store := store, writes := 0, errors := [.RecordNotFound], dirLookups := 1 }
      | [item] =>
        let roleStatus := if stackSetStatus = "SUCCEEDED" then "READY" else stackSetStatus
        if roleStatus = "READY" ∧ item.PageSuiteRoleStatus = "READY" ∧
            item.PageSuiteRoleArn ≠ "" then
          { store := store, writes := 0, errors := [], dirLookups := 1 }
        else if roleStatus = "READY" then
          { store := updateItem store item.PK item.SK
              (fun r => { r with
                  PageSuiteRoleArn := "arn:aws:iam::" ++ accountId ++ ":role/PageSuiteRole",
                  PageSuiteRoleStatus := roleStatus, LastModified := now }),
            writes := 1, errors := [], dirLookups := 1 }
        else
          { store := updateItem store item.PK item.SK
              (fun r => { r with PageSuiteRoleStatus := roleStatus, LastModified := now }),
            writes := 1, errors := [], dirLookups := 1 }
      | _ => { store := store, writes := 0, errors := [.AmbiguousCorrelation], dirLookups := 1 }

/-- A normalized lifecycle signal: one constructor per handler input. -/
inductive LifecycleSignal where
  | provisionRequested : ProvisionProductDetail → LifecycleSignal
  | accountCreated : CreateManagedAccountDetail → LifecycleSignal
  | roleDeployed : StackSetStatusDetail → LifecycleSignal
deriving DecidableEq, Inhabited

/-- Dispatch one signal to its handler. -/
def applySignal (dir : String → Option String) (now : String)
    (store : List TenantAccountRecord) : LifecycleSignal → HandlerResult
  | .provisionRequested d => handleProvisionProduct now store d
  | .accountCreated d => handleCreateManagedAccount now store d
  | .roleDeployed d => handleStackSetInstanceStatusChange now dir store d

/-- Run a sequence of signals, each with its own invocation timestamp,
threading the store through the successive handler invocations. -/
def runSignals (dir : String → Option String)
    (store : List TenantAccountRecord) : List (String × LifecycleSignal) → List TenantAccountRecord
  | [] => store
  | (now, s) :: rest => runSignals dir (applySignal dir now store s).store rest

/-- Modelled from the spec: the State Store port's conditional create
(`create(key, initialRecord) -> fails if key exists`).  The storage engine
behind the `PutCommand` with
`ConditionExpression: attribute_not_exists(PK) AND attribute_not_exists(SK)`
is not part of the repository; its conditional-write contract is that the put
is rejected, leaving the table untouched, exactly when an item with the same
`(PK, SK)` key already exists, and inserts the item otherwise. -/
def createRecord (store : List TenantAccountRecord) (item : TenantAccountRecord) :
    Except ReconcilerError Unit × List TenantAccountRecord :=
  if store.any (fun r => r.PK == item.PK && r.SK == item.SK) then
    (.error .StoreWriteConflict, store)
  else
    (.ok (), store ++ [item])

/-- The record the creation step inserts: `PENDING`/`PENDING`, every other
attribute empty (`src/local/test-account-creation.ts`). -/
def initialRecord (pk sk now : String) : TenantAccountRecord :=
  { PK := pk, SK := sk, AwsAccountStatus := "PENDING", AwsAccountId := "",
    AwsAccountName := "", PageSuiteRoleStatus := "PENDING", PageSuiteRoleArn := "",
    LastModified := now }


/-! ### Helper lemmas about `updateItem` -/

theorem updateItem_forall {P : TenantAccountRecord → Prop}
    {store : List TenantAccountRecord} {pk sk : String}
    {f : TenantAccountRecord → TenantAccountRecord}
    (h : ∀ r ∈ store, P r) (hemp : P (f (emptyRecord pk sk)))
    (hf : ∀ r, P r → P (f r)) :
    ∀ r ∈ updateItem store pk sk f, P r := by
  intro r hr
  unfold updateItem at hr
  split at hr
  · rcases List.mem_map.mp hr with ⟨r₀, hr₀, rfl⟩
    split
    · exact hf r₀ (h r₀ hr₀)
    · exact h r₀ hr₀
  · rcases List.mem_append.mp hr with h1 | h1
    · exact h r h1
    · rw [List.mem_singleton.mp h1]
      exact hemp

theorem string_append_append_ne_empty (p x y : String) (hp : p ≠ "") :
    p ++ x ++ y ≠ "" := by
  intro h
  have hd := congrArg String.data h
  simp only [String.data_append] at hd
  rcases List.append_eq_nil.mp hd with ⟨hd1, -⟩
  rcases List.append_eq_nil.mp hd1 with ⟨hd2, -⟩
  exact hp (congrArg String.mk hd2 : (⟨p.data⟩ : String) = ⟨[]⟩)

/-! ### The `roleArn`/`roleStatus` invariant (claim C1) -/

/-- `roleArn` is populated whenever `roleStatus = READY`. -/
abbrev roleArnReadyInv (r : TenantAccountRecord) : Prop :=
  r.PageSuiteRoleStatus = "READY" → r.PageSuiteRoleArn ≠ ""

theorem handleProvisionProduct_roleArnInv (now : String)
    (store : List TenantAccountRecord) (d : ProvisionProductDetail)
    (h : ∀ r ∈ store, roleArnReadyInv r) :
    ∀ r ∈ (handleProvisionProduct now store d).store, roleArnReadyInv r := by
  unfold handleProvisionProduct
  dsimp only
  split
  · exact h
  · dsimp only
    refine updateItem_forall h ?_ ?_
    · intro hc
      simp [emptyRecord] at hc
    · exact fun r hr => hr

theorem handleCreateManagedAccount_roleArnInv (now : String)
    (store : List TenantAccountRecord) (d : CreateManagedAccountDetail)
    (h : ∀ r ∈ store, roleArnReadyInv r) :
    ∀ r ∈ (handleCreateManagedAccount now store d).store, roleArnReadyInv r := by
  unfold handleCreateManagedAccount
  dsimp only
  split
  · exact h
  · dsimp only
    refine updateItem_forall h ?_ ?_
    · intro hc
      simp [emptyRecord] at hc
    · exact fun r hr => hr
  · exact h

theorem handleStackSetInstanceStatusChange_roleArnInv (now : String)
    (dir : String → Option String) (store : List TenantAccountRecord)
    (d : StackSetStatusDetail)
    (h : ∀ r ∈ store, roleArnReadyInv r) :
    ∀ r ∈ (handleStackSetInstanceStatusChange now dir store d).store, roleArnReadyInv r := by
  have harn : ∀ (x : String), ("arn:aws:iam::" ++ x ++ ":role/PageSuiteRole") ≠ "" :=
    fun x => string_append_append_ne_empty _ x _ (by decide)
  unfold handleStackSetInstanceStatusChange
  dsimp only
  repeat' split
  all_goals
    first
    | exact h
    | (rename_i hnr
       exact absurd rfl hnr)
    | (dsimp only
       refine updateItem_forall h (fun _ => harn _) (fun r _ _ => harn _))
    | (rename_i hnr
       dsimp only
       refine updateItem_forall h (fun hc => absurd hc hnr) (fun r _ hc => absurd hc hnr))

/-- C1: for every store of records satisfying `roleStatus = READY →
roleArn ≠ ""` (as every creation-initial record does) and every sequence of
signals applied by the reconciler, every record still satisfies
`roleStatus = READY → roleArn ≠ ""` after the sequence.  This is the
provable direction of the claimed biconditional; the converse direction is
refuted by `roleArn_iff_ready_counterexample`. -/
theorem runSignals_roleArn_ready (dir : String → Option String)
    (sigs : List (String × LifecycleSignal)) (store : List TenantAccountRecord)
    (h : ∀ r ∈ store, roleArnReadyInv r) :
    ∀ r ∈ runSignals dir store sigs, roleArnReadyInv r := by
  induction sigs generalizing store with
  | nil => exact h
  | cons p rest ih =>
    obtain ⟨now, s⟩ := p
    cases s with
    | provisionRequested d =>
      exact ih _ (handleProvisionProduct_roleArnInv now store d h)
    | accountCreated d =>
      exact ih _ (handleCreateManagedAccount_roleArnInv now store d h)
    | roleDeployed d =>
      exact ih _ (handleStackSetInstanceStatusChange_roleArnInv now dir store d h)

/-- Witness for C1: a concrete creation-initial store and a concrete
successful `RoleDeployed` signal satisfy the hypothesis, and the invariant
holds afterwards. -/
theorem runSignals_roleArn_ready_witness :
    (∀ r ∈ [{ initialRecord "PS#t1" "ENV#Dev" "t0" with AwsAccountName := "n1" }],
        roleArnReadyInv r) ∧
    ∀ r ∈ runSignals (fun _ => some "n1")
        [{ initialRecord "PS#t1" "ENV#Dev" "t0" with AwsAccountName := "n1" }]
        [("t1", .roleDeployed
            { stackId := "a:b:c:d:111:e", detailedStatus := "SUCCEEDED", status := "" })],
      roleArnReadyInv r :=
  ⟨by decide,
   runSignals_roleArn_ready (fun _ => some "n1") _ _ (by decide)⟩

/-- Counterexample to C1 as stated: starting from the creation-initial
record for `t1`/`Dev`, a `ProvisionRequested` naming the account `n1`, a
successful `RoleDeployed`, and then a failed `RoleDeployed` leave the record
with `roleStatus = FAILED` but `roleArn` still populated, so after that
transition `roleArn` non-empty does not imply `roleStatus = READY`. -/
theorem roleArn_iff_ready_counterexample :
    ¬ (∀ r ∈ runSignals (fun _ => some "n1")
          [initialRecord "PS#t1" "ENV#Dev" "t0"]
          [("t1", .provisionRequested
              { tags := [{ key := "ps:accountId", value := "t1" },
                         { key := "ps:environment", value := "Dev" }],
                provisioningParameters := [{ key := "AccountName", value := "n1" }],
                status := "CREATED" }),
           ("t2", .roleDeployed
              { stackId := "a:b:c:d:111:e", detailedStatus := "SUCCEEDED", status := "" }),
           ("t3", .roleDeployed
              { stackId := "a:b:c:d:111:e", detailedStatus := "FAILED", status := "" })],
        (r.PageSuiteRoleArn ≠ "" ↔ r.PageSuiteRoleStatus = "READY")) := by decide

/-- C2: a `RoleDeployed` signal whose raw status is `SUCCEEDED`, correlated
to a unique record already in `roleStatus = READY` with a non-empty
`roleArn`, performs zero store writes: the invocation leaves the store
unchanged and reports nothing. -/
theorem roleDeployed_success_idempotent (now : String) (dir : String → Option String)
    (store : List TenantAccountRecord) (d : StackSetStatusDetail)
    (item : TenantAccountRecord) (name : String)
    (h5 : ¬ (jsSplit ':' d.stackId).length < 5)
    (hdir : dir ((jsSplit ':' d.stackId).getD 4 "") = some name)
    (hscan : store.filter (fun r => r.AwsAccountName == name) = [item])
    (hsucc : jsOr d.detailedStatus d.status = "SUCCEEDED")
    (hready : item.PageSuiteRoleStatus = "READY")
    (harn : item.PageSuiteRoleArn ≠ "") :
    handleStackSetInstanceStatusChange now dir store d =
      { store := store, writes := 0, errors := [], dirLookups := 1 } := by
  have hrs : (if jsOr d.detailedStatus d.status = "SUCCEEDED" then "READY"
      else jsOr d.detailedStatus d.status) = "READY" := by
    rw [hsucc]
    exact if_pos rfl
  unfold handleStackSetInstanceStatusChange
  dsimp only
  rw [if_neg h5, hdir]
  dsimp only
  rw [hscan]
  dsimp only
  rw [hrs, if_pos ⟨rfl, hready, harn⟩]

/-- Witness for C2 at a concrete store, signal and directory. -/
theorem roleDeployed_success_idempotent_witness :
    (¬ (jsSplit ':' "a:b:c:d:111:e").length < 5) ∧
    handleStackSetInstanceStatusChange "t9" (fun _ => some "n1")
      [{ PK := "PS#t1", SK := "ENV#Dev", AwsAccountStatus := "READY",
         AwsAccountId := "111", AwsAccountName := "n1",
         PageSuiteRoleStatus := "READY",
         PageSuiteRoleArn := "arn:aws:iam::111:role/PageSuiteRole",
         LastModified := "t3" }]
      { stackId := "a:b:c:d:111:e", detailedStatus := "SUCCEEDED", status := "" } =
      { store := [{ PK := "PS#t1", SK := "ENV#Dev", AwsAccountStatus := "READY",
                    AwsAccountId := "111", AwsAccountName := "n1",
                    PageSuiteRoleStatus := "READY",
                    PageSuiteRoleArn := "arn:aws:iam::111:role/PageSuiteRole",
                    LastModified := "t3" }],
        writes := 0, errors := [], dirLookups := 1 } :=
  ⟨by decide,
   roleDeployed_success_idempotent "t9" (fun _ => some "n1")
     [{ PK := "PS#t1", SK := "ENV#Dev", AwsAccountStatus := "READY",
        AwsAccountId := "111", AwsAccountName := "n1",
        PageSuiteRoleStatus := "READY",
        PageSuiteRoleArn := "arn:aws:iam::111:role/PageSuiteRole",
        LastModified := "t3" }]
     { stackId := "a:b:c:d:111:e", detailedStatus := "SUCCEEDED", status := "" }
     { PK := "PS#t1", SK := "ENV#Dev", AwsAccountStatus := "READY",
       AwsAccountId := "111", AwsAccountName := "n1",
       PageSuiteRoleStatus := "READY",
       PageSuiteRoleArn := "arn:aws:iam::111:role/PageSuiteRole",
       LastModified := "t3" }
     "n1" (by decide) (by decide) (by decide) (by decide) (by decide) (by decide)⟩

/-- C7: a `RoleDeployed` event whose `stack-id` splits into fewer than 5
colon-delimited segments is reported as malformed: the store is unchanged,
no write is issued and no directory lookup is performed. -/
theorem malformed_stack_id_no_effect (now : String) (dir : String → Option String)
    (store : List TenantAccountRecord) (d : StackSetStatusDetail)
    (h5 : (jsSplit ':' d.stackId).length < 5) :
    handleStackSetInstanceStatusChange now dir store d =
      { store := store, writes := 0, errors := [.MalformedResourceId], dirLookups := 0 } := by
  unfold handleStackSetInstanceStatusChange
  dsimp only
  rw [if_pos h5]

/-- Witness for C7: the stack id `abc` has a single segment. -/
theorem malformed_stack_id_no_effect_witness :
    (jsSplit ':' "abc").length < 5 ∧
    handleStackSetInstanceStatusChange "t1" (fun _ => some "n1")
      [initialRecord "PS#t1" "ENV#Dev" "t0"]
      { stackId := "abc", detailedStatus := "SUCCEEDED", status := "" } =
      { store := [initialRecord "PS#t1" "ENV#Dev" "t0"], writes := 0,
        errors := [.MalformedResourceId], dirLookups := 0 } :=
  ⟨by decide,
   malformed_stack_id_no_effect "t1" (fun _ => some "n1") _ _ (by decide)⟩

/-- C3: when at least two records share the `accountName` a signal
correlates on, both the `AccountCreated` handler and the `RoleDeployed`
handler (once its resolved name equals that account name) report
`AmbiguousCorrelation` and leave the store untouched, with zero writes. -/
theorem ambiguous_correlation_no_write (now : String) (dir : String → Option String)
    (store : List TenantAccountRecord) (dcma : CreateManagedAccountDetail)
    (dss : StackSetStatusDetail)
    (h2 : 2 ≤ (store.filter (fun r => r.AwsAccountName == dcma.accountName)).length)
    (h5 : ¬ (jsSplit ':' dss.stackId).length < 5)
    (hdir : dir ((jsSplit ':' dss.stackId).getD 4 "") = some dcma.accountName) :
    handleCreateManagedAccount now store dcma =
      { store := store, writes := 0, errors := [.AmbiguousCorrelation], dirLookups := 0 } ∧
    handleStackSetInstanceStatusChange now dir store dss =
      { store := store, writes := 0, errors := [.AmbiguousCorrelation], dirLookups := 1 } := by
  obtain ⟨a, b, t, hft⟩ :
      ∃ a b t, store.filter (fun r => r.AwsAccountName == dcma.accountName) = a :: b :: t := by
    match hm : store.filter (fun r => r.AwsAccountName == dcma.accountName) with
    | [] =>
      rw [hm] at h2
      simp at h2
    | [x] =>
      rw [hm] at h2
      simp at h2
    | a :: b :: t => exact ⟨a, b, t, hm⟩
  constructor
  · unfold handleCreateManagedAccount
    dsimp only
    rw [hft]
  · unfold handleStackSetInstanceStatusChange
    dsimp only
    rw [if_neg h5, hdir]
    dsimp only
    rw [hft]

/-- Witness for C3: two records named `n1`, an `AccountCreated` and a
`RoleDeployed` signal both correlating on `n1`. -/
theorem ambiguous_correlation_no_write_witness :
    (2 ≤ (List.filter (fun r => r.AwsAccountName == "n1")
        [{ initialRecord "PS#t1" "ENV#Dev" "t0" with AwsAccountName := "n1" },
         { initialRecord "PS#t2" "ENV#Dev" "t0" with AwsAccountName := "n1" }]).length) ∧
    handleCreateManagedAccount "t5"
      [{ initialRecord "PS#t1" "ENV#Dev" "t0" with AwsAccountName := "n1" },
       { initialRecord "PS#t2" "ENV#Dev" "t0" with AwsAccountName := "n1" }]
      { state := "SUCCEEDED", accountId := "111", accountName := "n1" } =
      { store := [{ initialRecord "PS#t1" "ENV#Dev" "t0" with AwsAccountName := "n1" },
                  { initialRecord "PS#t2" "ENV#Dev" "t0" with AwsAccountName := "n1" }],
        writes := 0, errors := [.AmbiguousCorrelation], dirLookups := 0 } ∧
    handleStackSetInstanceStatusChange "t5" (fun _ => some "n1")
      [{ initialRecord "PS#t1" "ENV#Dev" "t0" with AwsAccountName := "n1" },
       { initialRecord "PS#t2" "ENV#Dev" "t0" with AwsAccountName := "n1" }]
      { stackId := "a:b:c:d:111:e", detailedStatus := "SUCCEEDED", status := "" } =
      { store := [{ initialRecord "PS#t1" "ENV#Dev" "t0" with AwsAccountName := "n1" },
                  { initialRecord "PS#t2" "ENV#Dev" "t0" with AwsAccountName := "n1" }],
        writes := 0, errors := [.AmbiguousCorrelation], dirLookups := 1 } :=
  ⟨by decide,
   ambiguous_correlation_no_write "t5" (fun _ => some "n1")
     [{ initialRecord "PS#t1" "ENV#Dev" "t0" with AwsAccountName := "n1" },
      { initialRecord "PS#t2" "ENV#Dev" "t0" with AwsAccountName := "n1" }]
     { state := "SUCCEEDED", accountId := "111", accountName := "n1" }
     { stackId := "a:b:c:d:111:e", detailedStatus := "SUCCEEDED", status := "" }
     (by decide) (by decide) (by decide)⟩

/-- C4: a valid `ProvisionRequested` signal (both correlation tags present)
always performs its write, and the record under the signal's key ends with
`accountStatus = IN_PROGRESS` when the raw status is `CREATED` and with the
raw status verbatim otherwise; it is never left as `CREATED`. -/
theorem provision_created_remap (now : String) (store : List TenantAccountRecord)
    (d : ProvisionProductDetail)
    (hps : findTag d.tags "ps:accountId" ≠ "")
    (henv : findTag d.tags "ps:environment" ≠ "") :
    (handleProvisionProduct now store d).writes = 1 ∧
    ∀ r ∈ (handleProvisionProduct now store d).store,
      r.PK = "PS#" ++ findTag d.tags "ps:accountId" →
      r.SK = "ENV#" ++ findTag d.tags "ps:environment" →
      r.AwsAccountStatus =
        (if jsOr d.status "UNKNOWN" = "CREATED" then "IN_PROGRESS" else jsOr d.status "UNKNOWN") ∧
      r.AwsAccountStatus ≠ "CREATED" := by
  have hstat : (if jsOr d.status "UNKNOWN" = "CREATED" then "IN_PROGRESS"
      else jsOr d.status "UNKNOWN") ≠ "CREATED" := by
    split
    · decide
    · rename_i hne
      exact hne
  unfold handleProvisionProduct
  dsimp only
  rw [if_neg (by rintro (hc | hc); exacts [hps hc, henv hc])]
  dsimp only
  refine ⟨rfl, ?_⟩
  intro r hr hpk hsk
  unfold updateItem at hr
  split at hr
  · rcases List.mem_map.mp hr with ⟨r₀, hr₀, rfl⟩
    by_cases hk : (r₀.PK == "PS#" ++ findTag d.tags "ps:accountId" &&
        r₀.SK == "ENV#" ++ findTag d.tags "ps:environment") = true
    · rw [if_pos hk] at hpk hsk ⊢
      exact ⟨rfl, hstat⟩
    · rw [if_neg hk] at hpk hsk ⊢
      rw [hpk, hsk] at hk
      simp at hk
  · rcases List.mem_append.mp hr with h1 | h1
    · rename_i hany
      exfalso
      apply hany
      refine List.any_eq_true.mpr ⟨r, h1, ?_⟩
      rw [hpk, hsk]
      simp
    · rw [List.mem_singleton.mp h1]
      exact ⟨rfl, hstat⟩

/-- Witness for C4 at a concrete store and signal with raw status
`CREATED`. -/
theorem provision_created_remap_witness :
    (findTag [{ key := "ps:accountId", value := "t1" },
              { key := "ps:environment", value := "Dev" }] "ps:accountId" ≠ "") ∧
    (findTag [{ key := "ps:accountId", value := "t1" },
              { key := "ps:environment", value := "Dev" }] "ps:environment" ≠ "") ∧
    ((handleProvisionProduct "t1" [initialRecord "PS#t1" "ENV#Dev" "t0"]
        { tags := [{ key := "ps:accountId", value := "t1" },
                   { key := "ps:environment", value := "Dev" }],
          provisioningParameters := [{ key := "AccountName", value := "n1" }],
          status := "CREATED" }).writes = 1 ∧
      ∀ r ∈ (handleProvisionProduct "t1" [initialRecord "PS#t1" "ENV#Dev" "t0"]
          { tags := [{ key := "ps:accountId", value := "t1" },
                     { key := "ps:environment", value := "Dev" }],
            provisioningParameters := [{ key := "AccountName", value := "n1" }],
            status := "CREATED" }).store,
        r.PK = "PS#" ++ findTag [{ key := "ps:accountId", value := "t1" },
            { key := "ps:environment", value := "Dev" }] "ps:accountId" →
        r.SK = "ENV#" ++ findTag [{ key := "ps:accountId", value := "t1" },
            { key := "ps:environment", value := "Dev" }] "ps:environment" →
        r.AwsAccountStatus =
          (if jsOr "CREATED" "UNKNOWN" = "CREATED" then "IN_PROGRESS"
           else jsOr "CREATED" "UNKNOWN") ∧
        r.AwsAccountStatus ≠ "CREATED") :=
  ⟨by decide, by decide,
   provision_created_remap "t1" [initialRecord "PS#t1" "ENV#Dev" "t0"]
     { tags := [{ key := "ps:accountId", value := "t1" },
                { key := "ps:environment", value := "Dev" }],
       provisioningParameters := [{ key := "AccountName", value := "n1" }],
       status := "CREATED" }
     (by decide) (by decide)⟩

/-- C6: the three-signal happy path for tenant `t1`/`Dev`: provision with
raw status `CREATED` and account name `n1`, account creation `SUCCEEDED` for
account `111` named `n1`, and role deployment `SUCCEEDED` for account `111`,
ending `READY`/`READY` with the conventional ARN for account `111`. -/
theorem provision_scenario_end_to_end :
    runSignals (fun a => if a = "111" then some "n1" else none)
      [initialRecord "PS#t1" "ENV#Dev" "t0"]
      [("t1", .provisionRequested
          { tags := [{ key := "ps:accountId", value := "t1" },
                     { key := "ps:environment", value := "Dev" }],
            provisioningParameters := [{ key := "AccountName", value := "n1" }],
            status := "CREATED" }),
       ("t2", .accountCreated
          { state := "SUCCEEDED", accountId := "111", accountName := "n1" }),
       ("t3", .roleDeployed
          { stackId := "arn:aws:cloudformation:eu-west-1:111:stack/s/i",
            detailedStatus := "SUCCEEDED", status := "" })] =
    [{ PK := "PS#t1", SK := "ENV#Dev", AwsAccountStatus := "READY",
       AwsAccountId := "111", AwsAccountName := "n1",
       PageSuiteRoleStatus := "READY",
       PageSuiteRoleArn := "arn:aws:iam::111:role/PageSuiteRole",
       LastModified := "t3" }] := by decide

/-! ### Pointwise preservation of `accountId` / `accountName` (claim C5) -/

theorem updateItem_length (store : List TenantAccountRecord) (pk sk : String)
    (f : TenantAccountRecord → TenantAccountRecord) :
    store.length ≤ (updateItem store pk sk f).length := by
  unfold updateItem
  split
  · rw [List.length_map]
  · rw [List.length_append]
    omega

theorem updateItem_getD (store : List TenantAccountRecord) (pk sk : String)
    (f : TenantAccountRecord → TenantAccountRecord) (i : Nat) (hi : i < store.length)
    (dflt : TenantAccountRecord) :
    (updateItem store pk sk f).getD i dflt =
      if ((store.getD i dflt).PK == pk && (store.getD i dflt).SK == sk) = true
      then f (store.getD i dflt) else store.getD i dflt := by
  unfold updateItem
  split
  · rw [List.getD_eq_getElem?_getD, List.getElem?_map, List.getElem?_eq_getElem hi,
      List.getD_eq_getElem?_getD, List.getElem?_eq_getElem hi]
    rfl
  · rename_i hany
    have hmem : store.getD i dflt ∈ store := by
      rw [List.getD_eq_getElem?_getD, List.getElem?_eq_getElem hi]
      exact List.getElem_mem hi
    rw [List.getD_eq_getElem?_getD, List.getElem?_append_left hi,
      ← List.getD_eq_getElem?_getD,
      if_neg (fun hc => hany (List.any_eq_true.mpr ⟨_, hmem, hc⟩))]

/-- `new` keeps every record of `old` at its position, never turning a
non-empty `AwsAccountId` or `AwsAccountName` into an empty one. -/
def preservesNonEmpty (old new : List TenantAccountRecord) : Prop :=
  old.length ≤ new.length ∧
  ∀ i, i < old.length →
    ((old.getD i default).AwsAccountId ≠ "" → (new.getD i default).AwsAccountId ≠ "") ∧
    ((old.getD i default).AwsAccountName ≠ "" → (new.getD i default).AwsAccountName ≠ "")

theorem preservesNonEmpty_refl (l : List TenantAccountRecord) : preservesNonEmpty l l :=
  ⟨Nat.le_refl _, fun _ _ => ⟨fun h => h, fun h => h⟩⟩

theorem updateItem_preservesNonEmpty (store : List TenantAccountRecord) (pk sk : String)
    (f : TenantAccountRecord → TenantAccountRecord)
    (hid : ∀ r, (f r).AwsAccountId = r.AwsAccountId ∨ (f r).AwsAccountId ≠ "")
    (hname : ∀ r, (f r).AwsAccountName = r.AwsAccountName ∨ (f r).AwsAccountName ≠ "") :
    preservesNonEmpty store (updateItem store pk sk f) := by
  refine ⟨updateItem_length store pk sk f, fun i hi => ?_⟩
  rw [updateItem_getD store pk sk f i hi]
  split
  · constructor
    · intro hne
      rcases hid (store.getD i default) with he | he
      · rw [he]
        exact hne
      · exact he
    · intro hne
      rcases hname (store.getD i default) with he | he
      · rw [he]
        exact hne
      · exact he
  · exact ⟨fun h => h, fun h => h⟩

/-- C5 (amended): no handler moves, drops or reorders existing records, and
none clears a non-empty `accountId` or `accountName` except by writing the
signal's own empty value: `RoleDeployed` never touches either attribute,
`AccountCreated` preserves them whenever the signal's `accountId` is
non-empty, and `ProvisionRequested` preserves them whenever the signal's
`AccountName` parameter is non-empty.  The unconditional claim is refuted by
`account_name_cleared_counterexample`. -/
theorem account_fields_preserved (now : String) (dir : String → Option String)
    (store : List TenantAccountRecord)
    (dpp : ProvisionProductDetail) (dcma : CreateManagedAccountDetail)
    (dss : StackSetStatusDetail)
    (hpname : findTag dpp.provisioningParameters "AccountName" ≠ "")
    (hcid : dcma.accountId ≠ "") :
    preservesNonEmpty store (handleProvisionProduct now store dpp).store ∧
    preservesNonEmpty store (handleCreateManagedAccount now store dcma).store ∧
    preservesNonEmpty store (handleStackSetInstanceStatusChange now dir store dss).store := by
  refine ⟨?_, ?_, ?_⟩
  · unfold handleProvisionProduct
    dsimp only
    split
    · exact preservesNonEmpty_refl store
    · dsimp only
      exact updateItem_preservesNonEmpty _ _ _ _ (fun _ => Or.inl rfl) (fun _ => Or.inr hpname)
  · unfold handleCreateManagedAccount
    dsimp only
    split
    · exact preservesNonEmpty_refl store
    · dsimp only
      exact updateItem_preservesNonEmpty _ _ _ _ (fun _ => Or.inr hcid) (fun _ => Or.inl rfl)
    · exact preservesNonEmpty_refl store
  · unfold handleStackSetInstanceStatusChange
    dsimp only
    repeat' split
    all_goals
      first
      | exact preservesNonEmpty_refl store
      | (dsimp only
         exact updateItem_preservesNonEmpty _ _ _ _ (fun _ => Or.inl rfl) (fun _ => Or.inl rfl))

/-- Witness for C5 at concrete signals with non-empty name and id. -/
theorem account_fields_preserved_witness :
    (findTag [{ key := "AccountName", value := "n1" }] "AccountName" ≠ "") ∧
    ("111" ≠ "") ∧
    (preservesNonEmpty [initialRecord "PS#t1" "ENV#Dev" "t0"]
      (handleProvisionProduct "t1" [initialRecord "PS#t1" "ENV#Dev" "t0"]
        { tags := [{ key := "ps:accountId", value := "t1" },
                   { key := "ps:environment", value := "Dev" }],
          provisioningParameters := [{ key := "AccountName", value := "n1" }],
          status := "CREATED" }).store ∧
    preservesNonEmpty [initialRecord "PS#t1" "ENV#Dev" "t0"]
      (handleCreateManagedAccount "t1" [initialRecord "PS#t1" "ENV#Dev" "t0"]
        { state := "SUCCEEDED", accountId := "111", accountName := "n1" }).store ∧
    preservesNonEmpty [initialRecord "PS#t1" "ENV#Dev" "t0"]
      (handleStackSetInstanceStatusChange "t1" (fun _ => some "n1")
        [initialRecord "PS#t1" "ENV#Dev" "t0"]
        { stackId := "a:b:c:d:111:e", detailedStatus := "SUCCEEDED", status := "" }).store) :=
  ⟨by decide, by decide,
   account_fields_preserved "t1" (fun _ => some "n1")
     [initialRecord "PS#t1" "ENV#Dev" "t0"]
     { tags := [{ key := "ps:accountId", value := "t1" },
                { key := "ps:environment", value := "Dev" }],
       provisioningParameters := [{ key := "AccountName", value := "n1" }],
       status := "CREATED" }
     { state := "SUCCEEDED", accountId := "111", accountName := "n1" }
     { stackId := "a:b:c:d:111:e", detailedStatus := "SUCCEEDED", status := "" }
     (by decide) (by decide)⟩

/-- Counterexample to C5 as stated: a record whose `AwsAccountName` is the
non-empty `n1` receives a valid `ProvisionRequested` signal that carries no
`AccountName` provisioning parameter; the handler's unconditional write
overwrites the non-empty name with the empty string. -/
theorem account_name_cleared_counterexample :
    ({ initialRecord "PS#t1" "ENV#Dev" "t0" with
        AwsAccountName := "n1" } : TenantAccountRecord).AwsAccountName ≠ "" ∧
    ∀ r ∈ (handleProvisionProduct "t1"
        [{ initialRecord "PS#t1" "ENV#Dev" "t0" with AwsAccountName := "n1" }]
        { tags := [{ key := "ps:accountId", value := "t1" },
                   { key := "ps:environment", value := "Dev" }],
          provisioningParameters := [], status := "CREATED" }).store,
      r.AwsAccountName = "" := by decide

/-- C8: a creation attempt whose `(PK, SK)` key is already present in the
store fails the conditional put and leaves the store — in particular the
existing record — unmodified. -/
theorem create_duplicate_key_fails (store : List TenantAccountRecord)
    (item existing : TenantAccountRecord) (hmem : existing ∈ store)
    (hpk : existing.PK = item.PK) (hsk : existing.SK = item.SK) :
    createRecord store item = (.error .StoreWriteConflict, store) := by
  unfold createRecord
  rw [if_pos (List.any_eq_true.mpr ⟨existing, hmem, by rw [hpk, hsk]; simp⟩)]

/-- Witness for C8: re-creating the `t1`/`Dev` key fails and returns the
store unchanged. -/
theorem create_duplicate_key_fails_witness :
    initialRecord "PS#t1" "ENV#Dev" "t0" ∈ [initialRecord "PS#t1" "ENV#Dev" "t0"] ∧
    createRecord [initialRecord "PS#t1" "ENV#Dev" "t0"]
        (initialRecord "PS#t1" "ENV#Dev" "t9") =
      (.error .StoreWriteConflict, [initialRecord "PS#t1" "ENV#Dev" "t0"]) :=
  ⟨by decide,
   create_duplicate_key_fails [initialRecord "PS#t1" "ENV#Dev" "t0"]
     (initialRecord "PS#t1" "ENV#Dev" "t9") (initialRecord "PS#t1" "ENV#Dev" "t0")
     (by decide) rfl rfl⟩

/-- C9: a `RoleDeployed` signal whose computed role status is not `READY`,
after unique correlation, performs exactly one write that rewrites only the
matched record's `PageSuiteRoleStatus` and `LastModified`; every other
attribute of every record — `roleArn`, `accountId`, `accountName`,
`accountStatus` and the primary key — is carried over unchanged. -/
theorem roleDeployed_non_ready_frame (now : String) (dir : String → Option String)
    (store : List TenantAccountRecord) (d : StackSetStatusDetail)
    (item : TenantAccountRecord) (name : String)
    (h5 : ¬ (jsSplit ':' d.stackId).length < 5)
    (hdir : dir ((jsSplit ':' d.stackId).getD 4 "") = some name)
    (hscan : store.filter (fun r => r.AwsAccountName == name) = [item])
    (hnotready : (if jsOr d.detailedStatus d.status = "SUCCEEDED" then "READY"
        else jsOr d.detailedStatus d.status) ≠ "READY") :
    (handleStackSetInstanceStatusChange now dir store d).writes = 1 ∧
    (handleStackSetInstanceStatusChange now dir store d).store =
      store.map (fun r =>
        if r.PK == item.PK && r.SK == item.SK then
          { r with
            PageSuiteRoleStatus :=
              (if jsOr d.detailedStatus d.status = "SUCCEEDED" then "READY"
               else jsOr d.detailedStatus d.status),
            LastModified := now }
        else r) := by
  have hmem : item ∈ store := by
    have : item ∈ store.filter (fun r => r.AwsAccountName == name) := by
      rw [hscan]
      exact List.mem_singleton_self item
    exact (List.mem_filter.mp this).1
  unfold handleStackSetInstanceStatusChange
  dsimp only
  rw [if_neg h5, hdir]
  dsimp only
  rw [hscan]
  dsimp only
  rw [if_neg (fun hcon => hnotready hcon.1), if_neg hnotready]
  refine ⟨rfl, ?_⟩
  dsimp only
  unfold updateItem
  rw [if_pos (List.any_eq_true.mpr ⟨item, hmem, by simp⟩)]

/-- Witness for C9: a unique record named `n1`, a `RoleDeployed` with raw
status `FAILED`. -/
theorem roleDeployed_non_ready_frame_witness :
    (List.filter (fun r => r.AwsAccountName == "n1")
        [{ initialRecord "PS#t1" "ENV#Dev" "t0" with AwsAccountName := "n1" }] =
      [{ initialRecord "PS#t1" "ENV#Dev" "t0" with AwsAccountName := "n1" }]) ∧
    ((handleStackSetInstanceStatusChange "t4" (fun _ => some "n1")
        [{ initialRecord "PS#t1" "ENV#Dev" "t0" with AwsAccountName := "n1" }]
        { stackId := "a:b:c:d:111:e", detailedStatus := "FAILED", status := "" }).writes = 1 ∧
      (handleStackSetInstanceStatusChange "t4" (fun _ => some "n1")
        [{ initialRecord "PS#t1" "ENV#Dev" "t0" with AwsAccountName := "n1" }]
        { stackId := "a:b:c:d:111:e", detailedStatus := "FAILED", status := "" }).store =
      List.map (fun r =>
        if r.PK == ({ initialRecord "PS#t1" "ENV#Dev" "t0" with
              AwsAccountName := "n1" } : TenantAccountRecord).PK &&
            r.SK == ({ initialRecord "PS#t1" "ENV#Dev" "t0" with
              AwsAccountName := "n1" } : TenantAccountRecord).SK then
          { r with
            PageSuiteRoleStatus :=
              (if jsOr "FAILED" "" = "SUCCEEDED" then "READY" else jsOr "FAILED" ""),
            LastModified := "t4" }
        else r)
        [{ initialRecord "PS#t1" "ENV#Dev" "t0" with AwsAccountName := "n1" }]) :=
  ⟨by decide,
   roleDeployed_non_ready_frame "t4" (fun _ => some "n1")
     [{ initialRecord "PS#t1" "ENV#Dev" "t0" with AwsAccountName := "n1" }]
     { stackId := "a:b:c:d:111:e", detailedStatus := "FAILED", status := "" }
     { initialRecord "PS#t1" "ENV#Dev" "t0" with AwsAccountName := "n1" }
     "n1" (by decide) (by decide) (by decide) (by decide)⟩

/-! ### Exception model of the handlers (claim C10)

Each handler wraps its whole body in `try { ... } catch (error) {
console.error(...) }`.  To reason about error propagation, the bodies are
re-stated with explicitly fallible ports: every `send` of a scan or update
command and every `DescribeAccount` call returns `Except`, so a rejecting
port aborts the body exactly where the corresponding promise would reject. -/

/-- Fallible store port: `ScanCommand` and `UpdateCommand` sends may
reject. -/
structure StorePort where
  scanByName : String → Except String (List TenantAccountRecord)
  updateByKey : String → String → Except String Unit

/-- Fallible Organizations port: `DescribeAccount` may reject, or succeed
without an account name (`none`). -/
structure DirectoryPort where
  describeAccount : String → Except String (Option String)

/-- The body of `handleProvisionProduct` inside its `try`, returning the
lines it logs. -/
def provisionBody (sp : StorePort) (detail : ProvisionProductDetail) :
    Except String (List String) := do
  let psAccountId := findTag detail.tags "ps:accountId"
  let environment := findTag detail.tags "ps:environment"
  if psAccountId = "" ∨ environment = "" then
    return ["Missing required tags"]
  else
    sp.updateByKey ("PS#" ++ psAccountId) ("ENV#" ++ environment)
    return ["Updated DynamoDB"]

/-- The body of `handleCreateManagedAccount` inside its `try`. -/
def createManagedBody (sp : StorePort) (detail : CreateManagedAccountDetail) :
    Except String (List String) := do
  let items ← sp.scanByName detail.accountName
  match items with
  | [] => return ["No DynamoDB item found"]
  | [item] =>
    sp.updateByKey item.PK item.SK
    return ["Updated DynamoDB"]
  | _ => return ["ERROR: multiple items"]

/-- The body of `handleStackSetInstanceStatusChange` inside its `try`. -/
def stackSetBody (sp : StorePort) (dp : DirectoryPort) (detail : StackSetStatusDetail) :
    Except String (List String) := do
  let stackIdParts := jsSplit ':' detail.stackId
  if stackIdParts.length < 5 then
    return ["Invalid stack-id format"]
  else
    let nameOpt ← dp.describeAccount (stackIdParts.getD 4 "")
    match nameOpt with
    | none => return ["Could not retrieve account name"]
    | some accountName =>
      let items ← sp.scanByName accountName
      match items with
      | [] => return ["No DynamoDB item found"]
      | [item] =>
        let stackSetStatus := jsOr detail.detailedStatus detail.status
        let roleStatus := if stackSetStatus = "SUCCEEDED" then "READY" else stackSetStatus
        if roleStatus = "READY" ∧ item.PageSuiteRoleStatus = "READY" ∧
            item.PageSuiteRoleArn ≠ "" then
          return ["skipping update"]
        else
          sp.updateByKey item.PK item.SK
          return ["Updated DynamoDB"]
      | _ => return ["ERROR: multiple items"]

/-- The outcome of one invocation as seen by the caller: the promise either
resolves (with the reported log lines) or rejects with an uncaught error. -/
inductive InvocationOutcome where
  | resolved : List String → InvocationOutcome
  | rejected : String → InvocationOutcome
deriving DecidableEq, Inhabited

/-- The handler-wide `try`/`catch`: a body error is caught and reported, so
the invocation resolves either way. -/
def catchAll (body : Except String (List String)) : InvocationOutcome :=
  match body with
  | .ok logs => .resolved logs
  | .error e => .resolved ["Error handling event: " ++ e]

def provisionInvoke (sp : StorePort) (d : ProvisionProductDetail) : InvocationOutcome :=
  catchAll (provisionBody sp d)

def createManagedInvoke (sp : StorePort) (d : CreateManagedAccountDetail) : InvocationOutcome :=
  catchAll (createManagedBody sp d)

def stackSetInvoke (sp : StorePort) (dp : DirectoryPort) (d : StackSetStatusDetail) :
    InvocationOutcome :=
  catchAll (stackSetBody sp dp d)

/-- C10: for every port behaviour — including rejecting store and directory
calls — and every structured event detail, each handler invocation
resolves; none ever ends `rejected`. -/
theorem handlers_never_reject (sp : StorePort) (dp : DirectoryPort)
    (dpp : ProvisionProductDetail) (dcma : CreateManagedAccountDetail)
    (dss : StackSetStatusDetail) :
    (∃ logs, provisionInvoke sp dpp = .resolved logs) ∧
    (∃ logs, createManagedInvoke sp dcma = .resolved logs) ∧
    (∃ logs, stackSetInvoke sp dp dss = .resolved logs) := by
  refine ⟨?_, ?_, ?_⟩
  · cases hb : provisionBody sp dpp with
    | ok logs => exact ⟨logs, by unfold provisionInvoke catchAll; rw [hb]⟩
    | error e => exact ⟨_, by unfold provisionInvoke catchAll; rw [hb]⟩
  · cases hb : createManagedBody sp dcma with
    | ok logs => exact ⟨logs, by unfold createManagedInvoke catchAll; rw [hb]⟩
    | error e => exact ⟨_, by unfold createManagedInvoke catchAll; rw [hb]⟩
  · cases hb : stackSetBody sp dp dss with
    | ok logs => exact ⟨logs, by unfold stackSetInvoke catchAll; rw [hb]⟩
    | error e => exact ⟨_, by unfold stackSetInvoke catchAll; rw [hb]⟩
